import Mathlib

/-!
Verification of the client-side artifact-resolution and validation-orchestration
logic of the ai-architect-enterprise repository.

The definitions below are a shallow embedding of:
* the diagram-URL resolution logic of `DashboardPage.jsx` (the `useEffect` on
  `diagramUrl`, `buildProxyUrl`, and the `img onError` handler), together with
  the endpoint construction of `config/api.js`;
* the validation service (`validateAzureComponents`, `getArchitectureSuggestions`,
  `validateTextComponents`) appended to `DashboardPage.jsx`;
* the debounced `validateDescription` effect of `ValidationPanel.jsx`.

JavaScript string primitives used by that code (`startsWith`, `includes`,
`endsWith`, `toLowerCase`, `encodeURIComponent`) are modelled in the `Js`
namespace on the character-list representation of `String`.
-/

namespace ArchitectAI

namespace Js

/-- JS `s.startsWith(pre)`: `pre` is a prefix of `s`. -/
def startsWith (s pre : String) : Bool :=
  pre.data.isPrefixOf s.data

/-- JS `s.endsWith(post)`: `post` is a suffix of `s`. -/
def endsWith (s post : String) : Bool :=
  post.data.isSuffixOf s.data

/-- Auxiliary: does `pat` occur as a contiguous sublist of `hay`? -/
def listOccurs (pat : List Char) : List Char → Bool
  | [] => pat.isEmpty
  | c :: rest => pat.isPrefixOf (c :: rest) || listOccurs pat rest

/-- JS `s.includes(pat)`: `pat` occurs as a contiguous substring of `s`. -/
def includes (s pat : String) : Bool :=
  listOccurs pat.data s.data

/-- JS `s.toLowerCase()` (ASCII-faithful, as all dictionary tokens are ASCII). -/
def toLowerCase (s : String) : String :=
  ⟨s.data.map Char.toLower⟩

/-- Characters left unescaped by JS `encodeURIComponent`:
`A-Z a-z 0-9 - _ . ! ~ * ' ( )`. -/
def isUnescapedChar (c : Char) : Bool :=
  let n := c.toNat
  (65 ≤ n && n ≤ 90) || (97 ≤ n && n ≤ 122) || (48 ≤ n && n ≤ 57) ||
  n == 45 || n == 95 || n == 46 || n == 33 || n == 126 || n == 42 ||
  n == 39 || n == 40 || n == 41

/-- Uppercase hexadecimal digit for `n < 16`. -/
def hexDigitChar (n : Nat) : Char :=
  if n < 10 then Char.ofNat (48 + n) else Char.ofNat (55 + n)

/-- UTF-8 bytes of the code point `n`. -/
def utf8Bytes (n : Nat) : List Nat :=
  if n < 128 then [n]
  else if n < 2048 then [192 + n / 64, 128 + n % 64]
  else if n < 65536 then [224 + n / 4096, 128 + (n / 64) % 64, 128 + n % 64]
  else [240 + n / 262144, 128 + (n / 4096) % 64, 128 + (n / 64) % 64, 128 + n % 64]

/-- `%XX` escape of one byte. -/
def percentEncodeByte (b : Nat) : List Char :=
  [Char.ofNat 37, hexDigitChar (b / 16), hexDigitChar (b % 16)]

/-- `%XX` escapes of a byte sequence. -/
def percentEncodeBytes : List Nat → List Char
  | [] => []
  | b :: bs => percentEncodeByte b ++ percentEncodeBytes bs

/-- Encoding of one character under `encodeURIComponent`. -/
def encodeChar (c : Char) : List Char :=
  if isUnescapedChar c then [c] else percentEncodeBytes (utf8Bytes c.toNat)

/-- Character-wise encoding of a character list. -/
def encodeList : List Char → List Char
  | [] => []
  | c :: cs => encodeChar c ++ encodeList cs

/-- JS `encodeURIComponent(s)`. -/
def encodeURIComponent (s : String) : String :=
  ⟨encodeList s.data⟩

theorem percentEncodeBytes_length (l : List Nat) :
    (percentEncodeBytes l).length = 3 * l.length := by
  induction l with
  | nil => rfl
  | cons b bs ih =>
      simp only [percentEncodeBytes, percentEncodeByte, List.length_append,
        List.length_cons, List.length_nil, ih]
      omega

theorem utf8Bytes_length_pos (n : Nat) : 0 < (utf8Bytes n).length := by
  unfold utf8Bytes
  repeat' split
  all_goals simp

theorem encodeChar_length_pos (c : Char) : 0 < (encodeChar c).length := by
  unfold encodeChar
  split
  · simp
  · rw [percentEncodeBytes_length]
    have h := utf8Bytes_length_pos c.toNat
    omega

theorem encodeList_length_ge (l : List Char) : l.length ≤ (encodeList l).length := by
  induction l with
  | nil => simp [encodeList]
  | cons c cs ih =>
      have h := encodeChar_length_pos c
      simp only [encodeList, List.length_append, List.length_cons]
      omega

theorem encodeURIComponent_length_ge (s : String) :
    s.length ≤ (encodeURIComponent s).length :=
  encodeList_length_ge s.data

end Js

theorem string_length_append (s t : String) : (s ++ t).length = s.length + t.length := by
  cases s with
  | mk a =>
      cases t with
      | mk b => simp [String.length, String.append]

theorem string_length_pos_of_ne_empty {s : String} (h : s ≠ "") : 0 < s.length := by
  cases s with
  | mk l =>
      cases l with
      | nil => exact absurd rfl h
      | cons c cs => simp [String.length]

theorem string_ne_of_length_ne {s t : String} (h : s.length ≠ t.length) : s ≠ t :=
  fun he => h (he ▸ rfl)

/-! ### Artifact Resolver (DashboardPage.jsx + config/api.js) -/

/-- `config/api.js`: `GENERATE_ARCHITECTURE` endpoint for a given base URL. -/
def generateArchitectureEndpoint (apiBaseUrl : String) : String :=
  apiBaseUrl ++ "/api/generate-architecture"

/-- The fixed suffix stripped from the generation endpoint. -/
def genSuffix : String := "/api/generate-architecture"

/-- `API_ENDPOINTS.GENERATE_ARCHITECTURE.replace(/\/api\/generate-architecture$/, '')`:
removes the trailing `/api/generate-architecture` if present, else leaves the
string unchanged. -/
def stripGenSuffix (s : String) : String :=
  if Js.endsWith s genSuffix then ⟨s.data.take (s.data.length - genSuffix.length)⟩ else s

/-- Classification used by the `useEffect` on `diagramUrl`:
`diagramUrl.startsWith('https://') && diagramUrl.includes('.blob.core.windows.net')`. -/
def isAzureStorageUrl (url : String) : Bool :=
  Js.startsWith url "https://" && Js.includes url ".blob.core.windows.net"

/-- Proxy endpoint path used when constructing proxied URLs. -/
def proxyPath : String := "/api/proxy/diagram?url="

/-- `buildProxyUrl(original)` of `DashboardPage.jsx`. -/
def buildProxyUrl (ep original : String) : String :=
  stripGenSuffix ep ++ proxyPath ++ Js.encodeURIComponent original

/-- First resolution performed by the `useEffect` on `diagramUrl`
(`ep` is `API_ENDPOINTS.GENERATE_ARCHITECTURE`). -/
def resolveDiagramUrl (ep url : String) : String :=
  if url = "" then ""
  else if isAzureStorageUrl url then
    stripGenSuffix ep ++ proxyPath ++ Js.encodeURIComponent url
  else
    stripGenSuffix ep ++ url

/-- Page state relevant to diagram resolution: the raw reference, the URL given
to the `img` element, the `diagramTriedProxy` flag, and the DOM effects of the
exhausted branch (`img.style.display = 'none'`, placeholder shown). -/
structure ResolverState where
  diagramUrl : String
  resolvedDiagramUrl : String
  diagramTriedProxy : Bool
  imgHidden : Bool
  placeholderShown : Bool
  deriving DecidableEq, Repr

/-- State after a new `diagramUrl` is set: the `useEffect` computes
`resolvedDiagramUrl` and resets `diagramTriedProxy`; the placeholder `div` is
styled `block` only when no diagram URL is present. -/
def initResolver (ep ref : String) : ResolverState :=
  { diagramUrl := ref
    resolvedDiagramUrl := resolveDiagramUrl ep ref
    diagramTriedProxy := false
    imgHidden := false
    placeholderShown := decide (ref = "") }

/-- The `img onError` handler of `DashboardPage.jsx`. -/
def onImgError (ep : String) (s : ResolverState) : ResolverState :=
  if !s.diagramTriedProxy then
    { s with
      resolvedDiagramUrl :=
        if Js.startsWith s.diagramUrl "https://" then s.diagramUrl
        else buildProxyUrl ep s.diagramUrl
      diagramTriedProxy := true }
  else
    { s with imgHidden := true, placeholderShown := true }

/-! ### Validation service (validationService, appended to DashboardPage.jsx) -/

/-- `{valid, canonical, submodule}` entry of a validation response. -/
structure ValidationResult where
  valid : Bool
  canonical : String
  submodule : String
  deriving DecidableEq, Repr

/-- `{component, usage, submodule}` suggestion entry. -/
structure Suggestion where
  component : String
  usage : String
  submodule : String
  deriving DecidableEq, Repr

/-- Aggregate state pushed to the parent via `onValidationChange`. -/
structure ValidationState where
  validationResults : List (String × ValidationResult)
  suggestions : List Suggestion
  hasErrors : Bool
  deriving DecidableEq, Repr

/-- Parsed JSON body of a successful `/api/validate-components` response;
`Option` models fields that may be absent (`data.validation_results || {}`). -/
structure ValidateResponseData where
  validation_results : Option (List (String × ValidationResult))
  error : Option String
  deriving DecidableEq, Repr

/-- Parsed JSON body of a successful `/api/suggest-architecture` response. -/
structure SuggestResponseData where
  suggestions : Option (List Suggestion)
  imports_needed : Option (List String)
  error : Option String
  deriving DecidableEq, Repr

/-- Outcome of one `fetch`: network rejection, non-ok HTTP status, or parsed body. -/
inductive FetchOutcome (α : Type) where
  | reject (msg : String)
  | httpError (status : Nat)
  | ok (data : α)
  deriving DecidableEq, Repr

/-- Both the rejection and the non-ok-status cases end in the `catch` block. -/
def FetchOutcome.isFailure {α : Type} : FetchOutcome α → Bool
  | .ok _ => false
  | _ => true

/-- A network call issued by the service layer. -/
inductive ApiCall where
  | validateComponents (componentNames : List String)
  | suggestArchitecture (description : String) (architectureTypes : List String)
  deriving DecidableEq, Repr

/-- Return value of `validateAzureComponents`. -/
structure ComponentValidationSvc where
  success : Bool
  validationResults : List (String × ValidationResult)
  error : Option String
  deriving DecidableEq, Repr

/-- `validateAzureComponents(componentNames)`: posts the batch to
`VALIDATE_COMPONENTS`; on rejection or non-ok status the `catch` block logs
`'Component validation error:'` and degrades to an empty result. Returns the
service result, the calls issued, and the console-error log entries. -/
def validateAzureComponents (outcome : FetchOutcome ValidateResponseData)
    (componentNames : List String) :
    ComponentValidationSvc × List ApiCall × List String :=
  match outcome with
  | .ok data =>
      (⟨true, data.validation_results.getD [], data.error⟩,
       [.validateComponents componentNames], [])
  | .httpError status =>
      (⟨false, [], some ("Validation failed: " ++ toString status)⟩,
       [.validateComponents componentNames], ["Component validation error"])
  | .reject msg =>
      (⟨false, [], some msg⟩,
       [.validateComponents componentNames], ["Component validation error"])

/-- Return value of `getArchitectureSuggestions`. -/
structure SuggestionsSvc where
  success : Bool
  suggestions : List Suggestion
  importsNeeded : List String
  error : Option String
  deriving DecidableEq, Repr

/-- The default `architectureTypes` parameter of `getArchitectureSuggestions`. -/
def defaultArchitectureTypes : List String :=
  ["frontend", "backend", "database", "cache"]

/-- `getArchitectureSuggestions(description, architectureTypes)`: posts to
`SUGGEST_ARCHITECTURE`; on rejection or non-ok status the `catch` block logs
`'Architecture suggestion error:'` and degrades to empty lists. -/
def getArchitectureSuggestions (outcome : FetchOutcome SuggestResponseData)
    (description : String) (architectureTypes : List String) :
    SuggestionsSvc × List ApiCall × List String :=
  match outcome with
  | .ok data =>
      (⟨true, data.suggestions.getD [], data.imports_needed.getD [], data.error⟩,
       [.suggestArchitecture description architectureTypes], [])
  | .httpError status =>
      (⟨false, [], [], some ("Architecture suggestion failed: " ++ toString status)⟩,
       [.suggestArchitecture description architectureTypes],
       ["Architecture suggestion error"])
  | .reject msg =>
      (⟨false, [], [], some msg⟩,
       [.suggestArchitecture description architectureTypes],
       ["Architecture suggestion error"])

/-- The fixed dictionary `azureKeywords` of `validateTextComponents`. -/
def azureKeywords : List String :=
  ["AppServices", "ContainerApps", "ACR", "AKS", "FunctionApps",
   "SQLDatabases", "CosmosDb", "CacheForRedis", "BlobStorage",
   "KeyVaults", "StaticWebApps", "ApplicationGateway", "LoadBalancer"]

/-- `azureKeywords.filter(keyword => text.toLowerCase().includes(keyword.toLowerCase()))`. -/
def detectComponents (text : String) : List String :=
  azureKeywords.filter fun keyword =>
    Js.includes (Js.toLowerCase text) (Js.toLowerCase keyword)

/-- Return value of `validateTextComponents` (the spread of the validation
result plus `detectedComponents`). -/
structure TextValidationSvc where
  success : Bool
  validationResults : List (String × ValidationResult)
  error : Option String
  detectedComponents : List String
  deriving DecidableEq, Repr

/-- `validateTextComponents(text)`: zero matches short-circuits to an empty
result without any network call; otherwise the full batch of detected names is
validated in one request. -/
def validateTextComponents (outcome : FetchOutcome ValidateResponseData)
    (text : String) : TextValidationSvc × List ApiCall × List String :=
  if detectComponents text = [] then
    (⟨true, [], none, []⟩, [], [])
  else
    let v := validateAzureComponents outcome (detectComponents text)
    (⟨v.1.success, v.1.validationResults, v.1.error, detectComponents text⟩, v.2.1, v.2.2)

/-! ### Validation Orchestrator (ValidationPanel.jsx) -/

/-- The object passed to `onValidationChange`: `validationResults` from the
component validation, the *untruncated* `suggestions` from the suggestion
call, and `hasErrors` as `Object.values(validationResults || {}).some(r => !r.valid)`. -/
def publishedOf (vOut : FetchOutcome ValidateResponseData)
    (sOut : FetchOutcome SuggestResponseData) (text : String) : ValidationState :=
  ⟨(validateTextComponents vOut text).1.validationResults,
   (getArchitectureSuggestions sOut text defaultArchitectureTypes).1.suggestions,
   (validateTextComponents vOut text).1.validationResults.any fun r => !r.2.valid⟩

/-- All effects of one run of `validateDescription` for the captured
`description`: the local panel state (`setValidationResults`,
`setDetectedComponents`, `setSuggestions(...slice(0, 5))`), the published
`ValidationState`, the network calls issued, and the console-error log. -/
structure CycleOutput where
  localValidationResults : List (String × ValidationResult)
  localDetectedComponents : List String
  localSuggestions : List Suggestion
  published : ValidationState
  calls : List ApiCall
  logs : List String
  deriving DecidableEq, Repr

/-- One run of `validateDescription` when the debounce timer fires:
`if (!description || description.length < 10) return;` guards the whole body,
otherwise both service calls are made and one state update is published. -/
def runValidateDescription (vOut : FetchOutcome ValidateResponseData)
    (sOut : FetchOutcome SuggestResponseData) (description : String) :
    Option CycleOutput :=
  if description = "" ∨ description.length < 10 then none
  else
    some ⟨(validateTextComponents vOut description).1.validationResults,
          (validateTextComponents vOut description).1.detectedComponents,
          ((getArchitectureSuggestions sOut description defaultArchitectureTypes).1.suggestions).take 5,
          publishedOf vOut sOut description,
          (validateTextComponents vOut description).2.1 ++
            (getArchitectureSuggestions sOut description defaultArchitectureTypes).2.1,
          (validateTextComponents vOut description).2.2 ++
            (getArchitectureSuggestions sOut description defaultArchitectureTypes).2.2⟩

/-- Network calls issued by one fired debounce timer. -/
def cycleApiCalls (r : Option CycleOutput) : List ApiCall :=
  match r with
  | none => []
  | some out => out.calls

/-! ### Interleaving of debounce cycles

The `useEffect` of `ValidationPanel.jsx` sets a 1000ms timer on every
`description` change and its cleanup clears the *pending* timer only; a cycle
whose timer already fired keeps running, and its completion applies
`setValidationResults` / `setSuggestions` / `onValidationChange` without any
staleness check.  The machine below replays those events on the UI thread. -/

/-- Panel-level scheduler state: the current `description`, whether a debounce
timer is pending, the started cycles (captured text, completed flag), the last
value pushed through `onValidationChange`, and a log of every publish
recording the cycle index and how many cycles had been initiated when the
publish happened. -/
structure OrchState where
  text : String
  timerPending : Bool
  cycles : List (String × Bool)
  lastPublished : Option ValidationState
  publishLog : List (Nat × Nat × ValidationState)
  deriving DecidableEq, Repr

/-- UI-thread events: a text edit (effect cleanup + new timer), the pending
timer firing (starts a cycle unless the length guard rejects), and the arrival
of the network responses of an in-flight cycle (its completion handler runs). -/
inductive PanelEvent where
  | edit (text : String)
  | timerFire
  | arrive (idx : Nat) (vOut : FetchOutcome ValidateResponseData)
      (sOut : FetchOutcome SuggestResponseData)
  deriving DecidableEq, Repr

/-- One scheduler step. An `arrive` for a started, not-yet-completed cycle
runs the rest of `validateDescription` unconditionally: the code has no epoch
counter, so the publish happens even when newer cycles have been initiated. -/
def stepPanel (s : OrchState) : PanelEvent → OrchState
  | .edit t => { s with text := t, timerPending := true }
  | .timerFire =>
      if s.timerPending then
        if s.text = "" ∨ s.text.length < 10 then { s with timerPending := false }
        else { s with timerPending := false, cycles := s.cycles ++ [(s.text, false)] }
      else s
  | .arrive idx vOut sOut =>
      match s.cycles[idx]? with
      | some (text, false) =>
          { s with
            cycles := s.cycles.set idx (text, true)
            lastPublished := some (publishedOf vOut sOut text)
            publishLog := s.publishLog ++ [(idx, s.cycles.length, publishedOf vOut sOut text)] }
      | _ => s

/-- Initial panel state: empty description, no timer, no cycles. -/
def initPanel : OrchState := ⟨"", false, [], none, []⟩

/-- Replay of a list of UI-thread events. -/
def runTrace (events : List PanelEvent) : OrchState :=
  events.foldl stepPanel initPanel

/-! ### Resolver theorems -/

/-- C1: For every non-empty DiagramReference, the first ResolvedURL follows the
classification: an absolute storage URL resolves to
`{backendBaseURL}/api/proxy/diagram?url={percent-encode(reference)}`, anything
else to `{backendBaseURL}{reference}`, where the backend base URL is the
generation endpoint with the fixed `/api/generate-architecture` suffix
stripped. -/
theorem first_resolution_matches_classification (ep ref : String) (h : ref ≠ "") :
    (isAzureStorageUrl ref = true →
      resolveDiagramUrl ep ref =
        stripGenSuffix ep ++ proxyPath ++ Js.encodeURIComponent ref) ∧
    (isAzureStorageUrl ref = false →
      resolveDiagramUrl ep ref = stripGenSuffix ep ++ ref) := by
  unfold resolveDiagramUrl
  rw [if_neg h]
  constructor
  · intro hc
    rw [if_pos hc]
  · intro hc
    rw [if_neg (by simp [hc])]

/-- Witness for `first_resolution_matches_classification` at the spec's own
scenario reference. -/
theorem first_resolution_matches_classification_witness :
    ("https://store.blob.core.windows.net/diagrams/x.png" ≠ "") ∧
    ((isAzureStorageUrl "https://store.blob.core.windows.net/diagrams/x.png" = true →
      resolveDiagramUrl "http://localhost:8000/api/generate-architecture"
          "https://store.blob.core.windows.net/diagrams/x.png" =
        stripGenSuffix "http://localhost:8000/api/generate-architecture" ++ proxyPath ++
          Js.encodeURIComponent "https://store.blob.core.windows.net/diagrams/x.png") ∧
    (isAzureStorageUrl "https://store.blob.core.windows.net/diagrams/x.png" = false →
      resolveDiagramUrl "http://localhost:8000/api/generate-architecture"
          "https://store.blob.core.windows.net/diagrams/x.png" =
        stripGenSuffix "http://localhost:8000/api/generate-architecture" ++
          "https://store.blob.core.windows.net/diagrams/x.png")) :=
  ⟨by decide,
   first_resolution_matches_classification
     "http://localhost:8000/api/generate-architecture"
     "https://store.blob.core.windows.net/diagrams/x.png" (by decide)⟩

/-- C10: a reference is proxied on first resolution only when it both starts
with `https://` and contains `.blob.core.windows.net`; every other non-empty
reference — including absolute URLs on other hosts or with other schemes —
takes the relative-path branch and is concatenated to the backend base URL. -/
theorem non_storage_absolute_resolves_relative (ep ref : String) (h : ref ≠ "") :
    (¬(Js.startsWith ref "https://" = true ∧
        Js.includes ref ".blob.core.windows.net" = true) →
      resolveDiagramUrl ep ref = stripGenSuffix ep ++ ref) ∧
    ((Js.startsWith ref "https://" = true ∧
        Js.includes ref ".blob.core.windows.net" = true) →
      resolveDiagramUrl ep ref =
        stripGenSuffix ep ++ proxyPath ++ Js.encodeURIComponent ref) := by
  have hiff : isAzureStorageUrl ref = true ↔
      (Js.startsWith ref "https://" = true ∧
        Js.includes ref ".blob.core.windows.net" = true) := by
    simp [isAzureStorageUrl]
  constructor
  · intro hn
    have hf : isAzureStorageUrl ref = false := by
      cases hb : isAzureStorageUrl ref
      · rfl
      · exact absurd (hiff.mp hb) hn
    unfold resolveDiagramUrl
    rw [if_neg h, if_neg (by simp [hf])]
  · intro hc
    unfold resolveDiagramUrl
    rw [if_neg h, if_pos (hiff.mpr hc)]

/-- Witness for `non_storage_absolute_resolves_relative` at an absolute
non-storage URL. -/
theorem non_storage_absolute_resolves_relative_witness :
    ("https://example.com/x.png" ≠ "") ∧
    ((¬(Js.startsWith "https://example.com/x.png" "https://" = true ∧
        Js.includes "https://example.com/x.png" ".blob.core.windows.net" = true) →
      resolveDiagramUrl "http://localhost:8000/api/generate-architecture"
          "https://example.com/x.png" =
        stripGenSuffix "http://localhost:8000/api/generate-architecture" ++
          "https://example.com/x.png") ∧
    ((Js.startsWith "https://example.com/x.png" "https://" = true ∧
        Js.includes "https://example.com/x.png" ".blob.core.windows.net" = true) →
      resolveDiagramUrl "http://localhost:8000/api/generate-architecture"
          "https://example.com/x.png" =
        stripGenSuffix "http://localhost:8000/api/generate-architecture" ++ proxyPath ++
          Js.encodeURIComponent "https://example.com/x.png")) :=
  ⟨by decide,
   non_storage_absolute_resolves_relative
     "http://localhost:8000/api/generate-architecture"
     "https://example.com/x.png" (by decide)⟩

/-- C3 as stated: after one failure the resolver issues a URL different from
the failed one, raw-direct for storage-classified references and proxied for
everything else. -/
def claimC3 : Prop :=
  ∀ ep ref : String, ref ≠ "" →
    (onImgError ep (initResolver ep ref)).resolvedDiagramUrl
        ≠ (initResolver ep ref).resolvedDiagramUrl ∧
    (isAzureStorageUrl ref = true →
      (onImgError ep (initResolver ep ref)).resolvedDiagramUrl = ref) ∧
    (isAzureStorageUrl ref = false →
      (onImgError ep (initResolver ep ref)).resolvedDiagramUrl = buildProxyUrl ep ref)

/-- C3 fails on the code: with the default empty API base
(endpoint `/api/generate-architecture`) and the absolute non-storage reference
`https://example.com/x.png`, the first ResolvedURL is the bare reference and
the fallback is the same string — the failed URL is repeated (and the fallback
is direct, not proxied). -/
theorem fallback_claim_counterexample : ¬ claimC3 := by
  intro h
  have h1 := (h "/api/generate-architecture" "https://example.com/x.png" (by decide)).1
  exact h1 (by decide)

/-- C3 amended: after exactly one failure `diagramTriedProxy` is set; the
fallback is the raw reference for references starting with `https://` and the
proxied URL built from the reference otherwise; the fallback differs from the
failed URL except in the degenerate case of an empty backend base URL combined
with an absolute non-storage reference. -/
theorem fallback_after_first_failure (ep ref : String) (h : ref ≠ "") :
    (onImgError ep (initResolver ep ref)).diagramTriedProxy = true ∧
    (Js.startsWith ref "https://" = true →
      (onImgError ep (initResolver ep ref)).resolvedDiagramUrl = ref) ∧
    (Js.startsWith ref "https://" = false →
      (onImgError ep (initResolver ep ref)).resolvedDiagramUrl = buildProxyUrl ep ref) ∧
    ((stripGenSuffix ep ≠ "" ∨ isAzureStorageUrl ref = true ∨
        Js.startsWith ref "https://" = false) →
      (onImgError ep (initResolver ep ref)).resolvedDiagramUrl
        ≠ (initResolver ep ref).resolvedDiagramUrl) := by
  have hLHS : (onImgError ep (initResolver ep ref)).resolvedDiagramUrl =
      (if Js.startsWith ref "https://" then ref else buildProxyUrl ep ref) := by
    simp [onImgError, initResolver]
  have hS0 : (initResolver ep ref).resolvedDiagramUrl = resolveDiagramUrl ep ref := rfl
  have hpp : proxyPath.length = 23 := by decide
  have henc := Js.encodeURIComponent_length_ge ref
  refine ⟨by simp [onImgError, initResolver], ?_, ?_, ?_⟩
  · intro hs
    rw [hLHS, if_pos hs]
  · intro hs
    rw [hLHS, if_neg (by simp [hs])]
  · intro hne
    rw [hLHS, hS0]
    unfold resolveDiagramUrl
    rw [if_neg h]
    by_cases hs : Js.startsWith ref "https://" = true
    · rw [if_pos hs]
      by_cases hb : isAzureStorageUrl ref = true
      · rw [if_pos hb]
        apply string_ne_of_length_ne
        rw [string_length_append, string_length_append, hpp]
        omega
      · rw [if_neg hb]
        have hstrip : stripGenSuffix ep ≠ "" := by
          rcases hne with h1 | h2 | h3
          · exact h1
          · exact absurd h2 hb
          · exact absurd hs (by simp [h3])
        have hpos := string_length_pos_of_ne_empty hstrip
        apply string_ne_of_length_ne
        rw [string_length_append]
        omega
    · rw [if_neg hs]
      have hsf : Js.startsWith ref "https://" = false := by
        simpa using hs
      have hb : isAzureStorageUrl ref = true → False := by
        intro hazure
        have := hazure
        unfold isAzureStorageUrl at this
        rw [hsf] at this
        exact absurd this (by simp)
      rw [if_neg hb]
      unfold buildProxyUrl
      apply string_ne_of_length_ne
      rw [string_length_append, string_length_append, string_length_append, hpp]
      omega

/-- Witness for `fallback_after_first_failure` at a storage URL with a
non-empty backend base. -/
theorem fallback_after_first_failure_witness :
    ("https://store.blob.core.windows.net/diagrams/x.png" ≠ "") ∧
    ((onImgError "http://localhost:8000/api/generate-architecture"
        (initResolver "http://localhost:8000/api/generate-architecture"
          "https://store.blob.core.windows.net/diagrams/x.png")).diagramTriedProxy = true ∧
    (Js.startsWith "https://store.blob.core.windows.net/diagrams/x.png" "https://" = true →
      (onImgError "http://localhost:8000/api/generate-architecture"
        (initResolver "http://localhost:8000/api/generate-architecture"
          "https://store.blob.core.windows.net/diagrams/x.png")).resolvedDiagramUrl =
        "https://store.blob.core.windows.net/diagrams/x.png") ∧
    (Js.startsWith "https://store.blob.core.windows.net/diagrams/x.png" "https://" = false →
      (onImgError "http://localhost:8000/api/generate-architecture"
        (initResolver "http://localhost:8000/api/generate-architecture"
          "https://store.blob.core.windows.net/diagrams/x.png")).resolvedDiagramUrl =
        buildProxyUrl "http://localhost:8000/api/generate-architecture"
          "https://store.blob.core.windows.net/diagrams/x.png") ∧
    ((stripGenSuffix "http://localhost:8000/api/generate-architecture" ≠ "" ∨
        isAzureStorageUrl "https://store.blob.core.windows.net/diagrams/x.png" = true ∨
        Js.startsWith "https://store.blob.core.windows.net/diagrams/x.png" "https://" = false) →
      (onImgError "http://localhost:8000/api/generate-architecture"
        (initResolver "http://localhost:8000/api/generate-architecture"
          "https://store.blob.core.windows.net/diagrams/x.png")).resolvedDiagramUrl
        ≠ (initResolver "http://localhost:8000/api/generate-architecture"
            "https://store.blob.core.windows.net/diagrams/x.png").resolvedDiagramUrl)) :=
  ⟨by decide,
   fallback_after_first_failure "http://localhost:8000/api/generate-architecture"
     "https://store.blob.core.windows.net/diagrams/x.png" (by decide)⟩

/-- C6: a second load error issues no third URL — `resolvedDiagramUrl` stays
at the fallback value — hides the image element, shows the static placeholder,
and leaves the state fixed under any further error. -/
theorem second_failure_marks_exhausted (ep ref : String) :
    (onImgError ep (onImgError ep (initResolver ep ref))).resolvedDiagramUrl
        = (onImgError ep (initResolver ep ref)).resolvedDiagramUrl ∧
    (onImgError ep (onImgError ep (initResolver ep ref))).imgHidden = true ∧
    (onImgError ep (onImgError ep (initResolver ep ref))).placeholderShown = true ∧
    onImgError ep (onImgError ep (onImgError ep (initResolver ep ref)))
      = onImgError ep (onImgError ep (initResolver ep ref)) := by
  simp [onImgError, initResolver]

/-! ### Orchestrator theorems -/

theorem validateAzureComponents_calls_eq (o : FetchOutcome ValidateResponseData)
    (names : List String) :
    (validateAzureComponents o names).2.1 = [ApiCall.validateComponents names] := by
  cases o <;> rfl

theorem getArchitectureSuggestions_calls_eq (o : FetchOutcome SuggestResponseData)
    (d : String) (t : List String) :
    (getArchitectureSuggestions o d t).2.1 = [ApiCall.suggestArchitecture d t] := by
  cases o <;> rfl

theorem guard_not_of_length {text : String} (h : 10 ≤ text.length) :
    ¬(text = "" ∨ text.length < 10) := by
  rintro (he | hl)
  · subst he
    revert h
    decide
  · omega

/-- C9: input shorter than 10 characters leaves the orchestrator idle when the
timer fires — `validateDescription` returns before any network call. -/
theorem short_input_stays_idle (vOut : FetchOutcome ValidateResponseData)
    (sOut : FetchOutcome SuggestResponseData) (text : String) (h : text.length < 10) :
    runValidateDescription vOut sOut text = none ∧
    cycleApiCalls (runValidateDescription vOut sOut text) = [] := by
  have hg : text = "" ∨ text.length < 10 := Or.inr h
  unfold runValidateDescription
  rw [if_pos hg]
  exact ⟨rfl, rfl⟩

/-- Witness for `short_input_stays_idle` on a 5-character input. -/
theorem short_input_stays_idle_witness :
    ("short".length < 10) ∧
    (runValidateDescription (FetchOutcome.reject "net down")
        (FetchOutcome.reject "net down") "short" = none ∧
     cycleApiCalls (runValidateDescription (FetchOutcome.reject "net down")
        (FetchOutcome.reject "net down") "short") = []) :=
  ⟨by decide, short_input_stays_idle _ _ "short" (by decide)⟩

/-- C7: detection is exactly case-insensitive substring match against the
fixed dictionary; non-empty detections are validated in one batch call and the
suggestion call always goes out once with the full text and the default
categories; empty detection short-circuits without a validation call. The
spec's scenario input detects `AppServices`, `CosmosDb`, `CacheForRedis`. -/
theorem component_detection_single_batch (vOut : FetchOutcome ValidateResponseData)
    (sOut : FetchOutcome SuggestResponseData) (text k : String) (h : 10 ≤ text.length) :
    (k ∈ detectComponents text ↔
      (k ∈ azureKeywords ∧
        Js.includes (Js.toLowerCase text) (Js.toLowerCase k) = true)) ∧
    (detectComponents text ≠ [] →
      cycleApiCalls (runValidateDescription vOut sOut text) =
        [ApiCall.validateComponents (detectComponents text),
         ApiCall.suggestArchitecture text defaultArchitectureTypes]) ∧
    (detectComponents text = [] →
      validateTextComponents vOut text = (⟨true, [], none, []⟩, [], []) ∧
      cycleApiCalls (runValidateDescription vOut sOut text) =
        [ApiCall.suggestArchitecture text defaultArchitectureTypes]) ∧
    detectComponents "Use AppServices and CosmosDb with CacheForRedis"
      = ["AppServices", "CosmosDb", "CacheForRedis"] := by
  have hg := guard_not_of_length h
  refine ⟨?_, ?_, ?_, by decide⟩
  · simp [detectComponents, List.mem_filter]
  · intro hd
    unfold runValidateDescription
    rw [if_neg hg]
    show (validateTextComponents vOut text).2.1 ++
        (getArchitectureSuggestions sOut text defaultArchitectureTypes).2.1 = _
    unfold validateTextComponents
    rw [if_neg hd]
    rw [validateAzureComponents_calls_eq, getArchitectureSuggestions_calls_eq]
    rfl
  · intro hd
    constructor
    · unfold validateTextComponents
      rw [if_pos hd]
    · unfold runValidateDescription
      rw [if_neg hg]
      show (validateTextComponents vOut text).2.1 ++
          (getArchitectureSuggestions sOut text defaultArchitectureTypes).2.1 = _
      unfold validateTextComponents
      rw [if_pos hd]
      rw [getArchitectureSuggestions_calls_eq]
      rfl

/-- Witness for `component_detection_single_batch` at the spec scenario. -/
theorem component_detection_single_batch_witness :
    (10 ≤ ("Use AppServices and CosmosDb with CacheForRedis" : String).length) ∧
    ((("AppServices" : String) ∈ detectComponents "Use AppServices and CosmosDb with CacheForRedis" ↔
      (("AppServices" : String) ∈ azureKeywords ∧
        Js.includes (Js.toLowerCase "Use AppServices and CosmosDb with CacheForRedis")
          (Js.toLowerCase "AppServices") = true)) ∧
    (detectComponents "Use AppServices and CosmosDb with CacheForRedis" ≠ [] →
      cycleApiCalls (runValidateDescription (FetchOutcome.reject "down")
          (FetchOutcome.reject "down") "Use AppServices and CosmosDb with CacheForRedis") =
        [ApiCall.validateComponents
           (detectComponents "Use AppServices and CosmosDb with CacheForRedis"),
         ApiCall.suggestArchitecture "Use AppServices and CosmosDb with CacheForRedis"
           defaultArchitectureTypes]) ∧
    (detectComponents "Use AppServices and CosmosDb with CacheForRedis" = [] →
      validateTextComponents (FetchOutcome.reject "down")
          "Use AppServices and CosmosDb with CacheForRedis" = (⟨true, [], none, []⟩, [], []) ∧
      cycleApiCalls (runValidateDescription (FetchOutcome.reject "down")
          (FetchOutcome.reject "down") "Use AppServices and CosmosDb with CacheForRedis") =
        [ApiCall.suggestArchitecture "Use AppServices and CosmosDb with CacheForRedis"
           defaultArchitectureTypes]) ∧
    detectComponents "Use AppServices and CosmosDb with CacheForRedis"
      = ["AppServices", "CosmosDb", "CacheForRedis"]) :=
  ⟨by decide,
   component_detection_single_batch (FetchOutcome.reject "down") (FetchOutcome.reject "down")
     "Use AppServices and CosmosDb with CacheForRedis" "AppServices" (by decide)⟩

/-- C8: every engaged cycle publishes exactly one state; each call's
contribution depends only on that call's outcome, a failed suggestion call
degrades to an empty list and is logged, and a failed validation call (when it
was made at all) degrades to an empty map and is logged — the other call's
contribution is untouched and nothing escapes the orchestrator. -/
theorem external_failure_degrades_locally (vOut : FetchOutcome ValidateResponseData)
    (sOut : FetchOutcome SuggestResponseData) (text : String) (h : 10 ≤ text.length) :
    ∃ out, runValidateDescription vOut sOut text = some out ∧
      out.published.validationResults = (validateTextComponents vOut text).1.validationResults ∧
      out.published.suggestions =
        (getArchitectureSuggestions sOut text defaultArchitectureTypes).1.suggestions ∧
      (sOut.isFailure = true →
        out.published.suggestions = [] ∧ "Architecture suggestion error" ∈ out.logs) ∧
      (vOut.isFailure = true → detectComponents text ≠ [] →
        out.published.validationResults = [] ∧ "Component validation error" ∈ out.logs) := by
  have hg := guard_not_of_length h
  unfold runValidateDescription
  rw [if_neg hg]
  refine ⟨_, rfl, rfl, rfl, ?_, ?_⟩
  · intro hf
    cases sOut with
    | ok d => exact absurd hf (by simp [FetchOutcome.isFailure])
    | httpError st =>
        exact ⟨rfl, List.mem_append.mpr (Or.inr (by simp [getArchitectureSuggestions]))⟩
    | reject m =>
        exact ⟨rfl, List.mem_append.mpr (Or.inr (by simp [getArchitectureSuggestions]))⟩
  · intro hf hd
    constructor
    · show (publishedOf vOut sOut text).validationResults = []
      unfold publishedOf validateTextComponents
      rw [if_neg hd]
      cases vOut with
      | ok d => exact absurd hf (by simp [FetchOutcome.isFailure])
      | httpError st => rfl
      | reject m => rfl
    · show "Component validation error" ∈
        (validateTextComponents vOut text).2.2 ++
          (getArchitectureSuggestions sOut text defaultArchitectureTypes).2.2
      apply List.mem_append.mpr
      left
      unfold validateTextComponents
      rw [if_neg hd]
      cases vOut with
      | ok d => exact absurd hf (by simp [FetchOutcome.isFailure])
      | httpError st => simp [validateAzureComponents]
      | reject m => simp [validateAzureComponents]

/-- Witness for `external_failure_degrades_locally` with both calls failing. -/
theorem external_failure_degrades_locally_witness :
    (10 ≤ ("Use CosmosDb for storage" : String).length) ∧
    (∃ out, runValidateDescription (FetchOutcome.reject "boom")
        (FetchOutcome.httpError 500) "Use CosmosDb for storage" = some out ∧
      out.published.validationResults =
        (validateTextComponents (FetchOutcome.reject "boom")
          "Use CosmosDb for storage").1.validationResults ∧
      out.published.suggestions =
        (getArchitectureSuggestions (FetchOutcome.httpError 500)
          "Use CosmosDb for storage" defaultArchitectureTypes).1.suggestions ∧
      ((FetchOutcome.httpError 500 : FetchOutcome SuggestResponseData).isFailure = true →
        out.published.suggestions = [] ∧ "Architecture suggestion error" ∈ out.logs) ∧
      ((FetchOutcome.reject "boom" : FetchOutcome ValidateResponseData).isFailure = true →
        detectComponents "Use CosmosDb for storage" ≠ [] →
        out.published.validationResults = [] ∧ "Component validation error" ∈ out.logs)) :=
  ⟨by decide,
   external_failure_degrades_locally (FetchOutcome.reject "boom")
     (FetchOutcome.httpError 500) "Use CosmosDb for storage" (by decide)⟩

/-- C5: in every published ValidationState, `hasErrors` is true exactly when
some entry of the `validationResults` map of that same update has
`valid = false`; in particular it is false for an empty map. -/
theorem hasErrors_is_disjunction (vOut : FetchOutcome ValidateResponseData)
    (sOut : FetchOutcome SuggestResponseData) (text : String) :
    ((publishedOf vOut sOut text).hasErrors = true ↔
      ∃ p ∈ (publishedOf vOut sOut text).validationResults, p.2.valid = false) ∧
    ((publishedOf vOut sOut text).validationResults = [] →
      (publishedOf vOut sOut text).hasErrors = false) := by
  have hpub : (publishedOf vOut sOut text).hasErrors =
      ((publishedOf vOut sOut text).validationResults.any fun r => !r.2.valid) := rfl
  rw [hpub]
  generalize (publishedOf vOut sOut text).validationResults = L
  constructor
  · rw [List.any_eq_true]
    simp [Bool.not_eq_true']
  · intro he
    rw [he]
    rfl

/-! ### C4: truncation of published suggestions -/

/-- C4 as stated: every published ValidationState carries at most the first 5
entries of the list returned by the suggestion call. -/
def claimC4 : Prop :=
  ∀ (vOut : FetchOutcome ValidateResponseData) (sOut : FetchOutcome SuggestResponseData)
      (text : String) (out : CycleOutput),
    runValidateDescription vOut sOut text = some out →
    out.published.suggestions =
      ((getArchitectureSuggestions sOut text defaultArchitectureTypes).1.suggestions).take 5

/-- A suggestion response with six entries, used to refute C4. -/
def sixSuggestions : List Suggestion :=
  [⟨"AppServices", "host the frontend", "web"⟩,
   ⟨"ContainerApps", "host the backend", "web"⟩,
   ⟨"CosmosDb", "store documents", "database"⟩,
   ⟨"CacheForRedis", "cache sessions", "database"⟩,
   ⟨"BlobStorage", "store diagrams", "storage"⟩,
   ⟨"KeyVaults", "store secrets", "security"⟩]

/-- C4 fails on the code: only the locally displayed list is sliced to 5;
`onValidationChange` receives `archSuggestions.suggestions` untruncated, so a
six-entry response is published with all six entries. -/
theorem published_truncation_counterexample : ¬ claimC4 := by
  intro h
  have h2 := h (FetchOutcome.ok ⟨some [], none⟩)
    (FetchOutcome.ok ⟨some sixSuggestions, none, none⟩) "Use CosmosDb for storage" _ rfl
  exact absurd h2 (by decide)

/-- C4 amended: the panel's locally displayed suggestions are the first 5
entries of the returned list (hence at most 5), while the published
ValidationState carries the full returned list. -/
theorem displayed_suggestions_truncated (vOut : FetchOutcome ValidateResponseData)
    (sOut : FetchOutcome SuggestResponseData) (text : String) (h : 10 ≤ text.length) :
    ∃ out, runValidateDescription vOut sOut text = some out ∧
      out.localSuggestions = out.published.suggestions.take 5 ∧
      out.localSuggestions.length ≤ 5 ∧
      out.published.suggestions =
        (getArchitectureSuggestions sOut text defaultArchitectureTypes).1.suggestions := by
  have hg := guard_not_of_length h
  unfold runValidateDescription
  rw [if_neg hg]
  refine ⟨_, rfl, rfl, ?_, rfl⟩
  show ((getArchitectureSuggestions sOut text defaultArchitectureTypes).1.suggestions.take 5).length ≤ 5
  rw [List.length_take]
  exact min_le_left _ _

/-- Witness for `displayed_suggestions_truncated` at a six-entry response. -/
theorem displayed_suggestions_truncated_witness :
    (10 ≤ ("Use CosmosDb for storage" : String).length) ∧
    (∃ out, runValidateDescription (FetchOutcome.ok ⟨some [], none⟩)
        (FetchOutcome.ok ⟨some sixSuggestions, none, none⟩) "Use CosmosDb for storage"
        = some out ∧
      out.localSuggestions = out.published.suggestions.take 5 ∧
      out.localSuggestions.length ≤ 5 ∧
      out.published.suggestions =
        (getArchitectureSuggestions (FetchOutcome.ok ⟨some sixSuggestions, none, none⟩)
          "Use CosmosDb for storage" defaultArchitectureTypes).1.suggestions) :=
  ⟨by decide,
   displayed_suggestions_truncated (FetchOutcome.ok ⟨some [], none⟩)
     (FetchOutcome.ok ⟨some sixSuggestions, none, none⟩) "Use CosmosDb for storage" (by decide)⟩

/-! ### C2: stale debounce cycles -/

/-- C2 as stated: once a newer debounce cycle has been initiated, the arrival
of an older cycle's responses must produce no visible state update — neither
the `onValidationChange` value nor the publish log may change. -/
def claimC2 : Prop :=
  ∀ (events : List PanelEvent) (idx : Nat) (vOut : FetchOutcome ValidateResponseData)
      (sOut : FetchOutcome SuggestResponseData),
    idx + 1 < (runTrace events).cycles.length →
    (stepPanel (runTrace events) (.arrive idx vOut sOut)).lastPublished
        = (runTrace events).lastPublished ∧
    (stepPanel (runTrace events) (.arrive idx vOut sOut)).publishLog
        = (runTrace events).publishLog

/-- Validation outcome delivered to the stale first cycle: `CosmosDb` invalid. -/
def cexStaleVOut : FetchOutcome ValidateResponseData :=
  .ok ⟨some [("CosmosDb", ⟨false, "CosmosDb", "unknown"⟩)], none⟩

/-- Validation outcome delivered to the fresh second cycle: `BlobStorage` valid. -/
def cexFreshVOut : FetchOutcome ValidateResponseData :=
  .ok ⟨some [("BlobStorage", ⟨true, "BlobStorage", "storage"⟩)], none⟩

/-- Suggestion outcome used by both cycles: an empty list. -/
def cexSOut : FetchOutcome SuggestResponseData := .ok ⟨some [], none, none⟩

/-- Event sequence in which the first cycle's timer fires, a second cycle
starts and completes, and the first cycle's responses are still in flight. -/
def cexEvents : List PanelEvent :=
  [.edit "Use CosmosDb for the catalog", .timerFire,
   .edit "Use BlobStorage for images", .timerFire,
   .arrive 1 cexFreshVOut cexSOut]

/-- C2 fails on the code: `validateDescription` has no staleness guard, so the
late arrival of cycle 0's responses after cycle 1 has already published
overwrites `lastPublished` (flipping `hasErrors` back to the stale value) and
appends to the publish log. -/
theorem stale_cycle_publishes_counterexample : ¬ claimC2 := by
  intro h
  have h2 := (h cexEvents 0 cexStaleVOut cexSOut (by decide)).2
  exact absurd h2 (by decide)

/-- C2 amended: the effect cleanup cancels only debounce timers that have not
yet fired; once a cycle is in flight, the arrival of its responses applies its
results unconditionally — updating the published state and the publish log —
even when newer cycles have since been initiated. -/
theorem arrival_applies_results_unconditionally (s : OrchState) (idx : Nat)
    (text : String) (vOut : FetchOutcome ValidateResponseData)
    (sOut : FetchOutcome SuggestResponseData)
    (h : s.cycles[idx]? = some (text, false)) :
    (stepPanel s (.arrive idx vOut sOut)).lastPublished
        = some (publishedOf vOut sOut text) ∧
    (stepPanel s (.arrive idx vOut sOut)).publishLog
        = s.publishLog ++ [(idx, s.cycles.length, publishedOf vOut sOut text)] := by
  simp only [stepPanel]
  rw [h]
  exact ⟨rfl, rfl⟩

/-- Witness for `arrival_applies_results_unconditionally` on the counterexample
trace, where a newer cycle has already started and published. -/
theorem arrival_applies_results_unconditionally_witness :
    ((runTrace cexEvents).cycles[0]? = some ("Use CosmosDb for the catalog", false)) ∧
    ((stepPanel (runTrace cexEvents) (.arrive 0 cexStaleVOut cexSOut)).lastPublished
        = some (publishedOf cexStaleVOut cexSOut "Use CosmosDb for the catalog") ∧
     (stepPanel (runTrace cexEvents) (.arrive 0 cexStaleVOut cexSOut)).publishLog
        = (runTrace cexEvents).publishLog ++
            [(0, (runTrace cexEvents).cycles.length,
              publishedOf cexStaleVOut cexSOut "Use CosmosDb for the catalog")]) :=
  ⟨by decide,
   arrival_applies_results_unconditionally (runTrace cexEvents) 0
     "Use CosmosDb for the catalog" cexStaleVOut cexSOut (by decide)⟩

/-- Witness for `hasErrors_is_disjunction` at a response with one invalid
entry. -/
theorem hasErrors_is_disjunction_witness :
    ((publishedOf (FetchOutcome.ok ⟨some [("CosmosDb", ⟨false, "CosmosDb", "unknown"⟩)], none⟩)
        (FetchOutcome.ok ⟨some [], none, none⟩) "Use CosmosDb for storage").hasErrors = true ↔
      ∃ p ∈ (publishedOf (FetchOutcome.ok ⟨some [("CosmosDb", ⟨false, "CosmosDb", "unknown"⟩)], none⟩)
        (FetchOutcome.ok ⟨some [], none, none⟩) "Use CosmosDb for storage").validationResults,
        p.2.valid = false) ∧
    ((publishedOf (FetchOutcome.ok ⟨some [("CosmosDb", ⟨false, "CosmosDb", "unknown"⟩)], none⟩)
        (FetchOutcome.ok ⟨some [], none, none⟩) "Use CosmosDb for storage").validationResults = [] →
      (publishedOf (FetchOutcome.ok ⟨some [("CosmosDb", ⟨false, "CosmosDb", "unknown"⟩)], none⟩)
        (FetchOutcome.ok ⟨some [], none, none⟩) "Use CosmosDb for storage").hasErrors = false) :=
  hasErrors_is_disjunction
    (FetchOutcome.ok ⟨some [("CosmosDb", ⟨false, "CosmosDb", "unknown"⟩)], none⟩)
    (FetchOutcome.ok ⟨some [], none, none⟩) "Use CosmosDb for storage"

end ArchitectAI
